import Mathlib

/-!
Verification development for the dnpy example programs
(src/examples/master.py and src/examples/outstation.py) and for the
session-core design that spec.md lays over them: scan scheduling,
type-polymorphic measurement dispatch, command/result aggregation and
session lifecycle.

The first part embeds the concrete Python code of the two example files:
the attribute environment built by MyMaster.__init__ together with the
statement list of MyMaster.shutdown, and the module-level name environment
of outstation.py together with the bodies of
OutstationCommandHandler.Select and .Operate.

The second part models, from the spec's words, the four designed
components (Scan Scheduler, Measurement Dispatcher, Command Result
Aggregator, Session Lifecycle); those components are part of this
repository's designed session core and are not present under src/ — the
example files delegate the corresponding behaviour to the external
opendnp3 stack.
-/

namespace DNPy

/-- Python exceptions that the embedded statements can raise. -/
inductive PyExc where
| attributeError (name : String)
| nameError (name : String)
deriving DecidableEq

/-! ## Embedding of src/examples/master.py: __init__ attributes and shutdown -/

/-- The instance attributes assigned by MyMaster.__init__
(src/examples/master.py, lines 38-79), in assignment order:
self.log_handler, self.master_application, self.listener, self.soe_handler,
self.manager, self.channel, self.master_application (assigned a second
time), self.stack_config, self.master, self.slow_scan, self.fast_scan. -/
def myMasterInitAttrs : List String :=
  ["log_handler", "master_application", "listener", "soe_handler", "manager",
   "channel", "master_application", "stack_config", "master", "slow_scan",
   "fast_scan"]

/-- One statement of MyMaster.shutdown: a del self.name statement or the
self.manager.Shutdown() call. -/
inductive MasterStmt where
| delSelf (name : String)
| managerShutdown
deriving DecidableEq

/-- The statement list of MyMaster.shutdown (src/examples/master.py,
lines 168-173): del self.integrity_scan; del self.exception_scan;
del self.master; del self.channel; self.manager.Shutdown(). -/
def myMasterShutdownBody : List MasterStmt :=
  [.delSelf "integrity_scan", .delSelf "exception_scan", .delSelf "master",
   .delSelf "channel", .managerShutdown]

/-- Python del semantics for an instance attribute: remove it from the
instance dictionary, or raise AttributeError when it is not present. -/
def delAttr (attrs : List String) (n : String) : Except PyExc (List String) :=
  if n ∈ attrs then .ok (attrs.filter (fun a => a ≠ n))
  else .error (.attributeError n)

/-- Outcome of running a statement list: the statements that began
executing in order, whether the manager.Shutdown() call was reached, and
the exception that aborted the run, if any. -/
structure RunResult where
  executed : List MasterStmt
  managerShutdownCalled : Bool
  exc : Option PyExc
deriving DecidableEq

/-- Run the statements of MyMaster.shutdown over an instance attribute
dictionary: a del that raises AttributeError aborts the run at that
statement, so nothing after it executes. -/
def runStmts (attrs : List String) : List MasterStmt → RunResult
| [] => ⟨[], false, none⟩
| .delSelf n :: rest =>
    match delAttr attrs n with
    | .ok attrs2 =>
        let r := runStmts attrs2 rest
        ⟨.delSelf n :: r.executed, r.managerShutdownCalled, r.exc⟩
    | .error e => ⟨[.delSelf n], false, some e⟩
| .managerShutdown :: rest =>
    let r := runStmts attrs rest
    ⟨.managerShutdown :: r.executed, true, r.exc⟩

/-! ## Embedding of src/examples/outstation.py: module names, Select, Operate -/

/-- The names bound at outstation.py's module level by its import
statements (src/examples/outstation.py, lines 1-34): the plain imports
logging, sys, os, cppyy, setup_cppyy, the from-import of opendnp3, and
the from-import list of lines 8-34. -/
def outstationImportedNames : List String :=
  ["logging", "sys", "os", "cppyy", "setup_cppyy", "opendnp3",
   "levels", "IChannelListener", "ILogHandler", "ConsoleLogger",
   "DNP3Manager", "ChannelRetry", "ServerAcceptMode", "TimeDuration",
   "PrintingChannelListener", "IPEndpoint", "ICommandHandler",
   "IOutstationApplication", "DatabaseConfig", "EventBufferConfig",
   "OutstationStackConfig", "BinaryConfig", "AnalogConfig", "PointClass",
   "StaticAnalogVariation", "StaticBinaryVariation", "EventAnalogVariation",
   "EventBinaryVariation", "SuccessCommandHandler", "UpdateBuilder",
   "RestartMode"]

/-- The names bound at outstation.py's module level by its own top-level
statements: module constants, the logging objects, and the class and
function definitions. -/
def outstationDefinedNames : List String :=
  ["LOG_LEVELS", "LOCAL_IP", "PORT", "stdout_stream", "_log",
   "OutstationApplication", "OutstationCommandHandler", "AppChannelListener",
   "MyLogger", "main"]

/-- The complete global namespace of module outstation.py. -/
def outstationGlobals : List String :=
  outstationImportedNames ++ outstationDefinedNames

/-- Names of the Python built-in namespace (the CPython builtins module),
the final fallback scope for name resolution after module globals. -/
def pythonBuiltins : List String :=
  ["abs", "aiter", "anext", "all", "any", "ascii", "bin", "bool",
   "breakpoint", "bytearray", "bytes", "callable", "chr", "classmethod",
   "compile", "complex", "copyright", "credits", "delattr", "dict", "dir",
   "divmod", "enumerate", "eval", "exec", "exit", "filter", "float",
   "format", "frozenset", "getattr", "globals", "hasattr", "hash", "help",
   "hex", "id", "input", "int", "isinstance", "issubclass", "iter", "len",
   "license", "list", "locals", "map", "max", "memoryview", "min", "next",
   "object", "oct", "open", "ord", "pow", "print", "property", "quit",
   "range", "repr", "reversed", "round", "set", "setattr", "slice",
   "sorted", "staticmethod", "str", "sum", "super", "tuple", "type",
   "vars", "zip", "ArithmeticError", "AssertionError", "AttributeError",
   "BaseException", "Exception", "ImportError", "IndexError", "KeyError",
   "LookupError", "NameError", "NotImplementedError", "OSError",
   "OverflowError", "RuntimeError", "StopIteration", "SystemExit",
   "TypeError", "UnboundLocalError", "ValueError", "ZeroDivisionError",
   "True", "False", "None", "NotImplemented", "Ellipsis", "__name__",
   "__import__", "__build_class__", "__debug__", "__doc__"]

/-- Python name resolution inside a function body of outstation.py: local
names first, then the module globals, then the builtins; a name found in
no scope raises NameError (the LEGB rule; these methods have no enclosing
function scope). -/
def resolveName (localNames : List String) (n : String) : Except PyExc Unit :=
  if n ∈ localNames ∨ n ∈ outstationGlobals ∨ n ∈ pythonBuiltins then .ok ()
  else .error (.nameError n)

/-- Command status codes of the DNP3 command model (the opendnp3 enum that
outstation.py's return statements refer to, restricted to the codes the
spec names: SUCCESS, TIMEOUT, a reject code, NoResponse, Cancelled). -/
inductive CommandStatus where
| SUCCESS
| TIMEOUT
| REJECTED
| NO_RESPONSE
| CANCELLED
deriving DecidableEq

/-- OutstationCommandHandler.Select (src/examples/outstation.py,
lines 263-273): first calls OutstationApplication.process_point_value
with the string Select, the command, the index and None — a method that
only logs — then executes return CommandStatus.SUCCESS, which must first
resolve the name CommandStatus against the locals self, command, index,
the module globals and the builtins. -/
def OutstationCommandHandler.Select (_command : α) (_index : Nat) :
    Except PyExc CommandStatus :=
  match resolveName ["self", "command", "index"] "CommandStatus" with
  | .ok _ => .ok CommandStatus.SUCCESS
  | .error e => .error e

/-- OutstationCommandHandler.Operate (src/examples/outstation.py,
lines 275-286): first calls OutstationApplication.process_point_value
with the string Operate, the command, the index and op_type — a method
that only logs — then executes return CommandStatus.SUCCESS, resolving
the name CommandStatus against the locals self, command, index, op_type,
the module globals and the builtins. -/
def OutstationCommandHandler.Operate (_command : α) (_index : Nat)
    (_op_type : β) : Except PyExc CommandStatus :=
  match resolveName ["self", "command", "index", "op_type"] "CommandStatus" with
  | .ok _ => .ok CommandStatus.SUCCESS
  | .error e => .error e

/-! ## Claim theorems C9 and C10 -/

/-- Claim C9: a MyMaster as constructed by __init__ stores its two scans
in slow_scan and fast_scan and never assigns integrity_scan, so every
call to shutdown() raises AttributeError on its very first statement
del self.integrity_scan; the later deletions of master and channel and
the manager.Shutdown() call are never reached. -/
theorem C9_shutdown_first_statement_attribute_error :
    "integrity_scan" ∉ myMasterInitAttrs ∧
    "slow_scan" ∈ myMasterInitAttrs ∧ "fast_scan" ∈ myMasterInitAttrs ∧
    runStmts myMasterInitAttrs myMasterShutdownBody =
      ⟨[.delSelf "integrity_scan"], false,
        some (.attributeError "integrity_scan")⟩ := by
  decide

/-- Claim C10: the name CommandStatus is bound neither by outstation.py's
imports nor by its module-level definitions nor by the builtins, so every
invocation of OutstationCommandHandler.Select or .Operate, whatever the
command and index, raises NameError at its return statement and never
answers with CommandStatus.SUCCESS (or any other status). -/
theorem C10_select_operate_raise_name_error :
    "CommandStatus" ∉ outstationGlobals ∧
    "CommandStatus" ∉ pythonBuiltins ∧
    (∀ (α β : Type) (command : α) (index : Nat) (op : β),
      OutstationCommandHandler.Select command index =
          .error (.nameError "CommandStatus") ∧
      OutstationCommandHandler.Operate command index op =
          .error (.nameError "CommandStatus") ∧
      (∀ s, OutstationCommandHandler.Select command index ≠ .ok s) ∧
      (∀ s, OutstationCommandHandler.Operate command index op ≠ .ok s)) := by
  refine ⟨by decide, by decide, ?_⟩
  intro α β command index op
  have hres1 : resolveName ["self", "command", "index"] "CommandStatus" =
      .error (.nameError "CommandStatus") := rfl
  have hres2 : resolveName ["self", "command", "index", "op_type"]
      "CommandStatus" = .error (.nameError "CommandStatus") := rfl
  have hs : OutstationCommandHandler.Select command index =
      .error (.nameError "CommandStatus") := by
    simp [OutstationCommandHandler.Select, hres1]
  have ho : OutstationCommandHandler.Operate command index op =
      .error (.nameError "CommandStatus") := by
    simp [OutstationCommandHandler.Operate, hres2]
  refine ⟨hs, ho, ?_, ?_⟩
  · intro s h
    rw [hs] at h
    exact Except.noConfusion h
  · intro s h
    rw [ho] at h
    exact Except.noConfusion h

/-- Concrete instantiation of claim C9: the computed run of shutdown's
statement list over the __init__ attribute dictionary. -/
theorem C9_witness :
    runStmts myMasterInitAttrs myMasterShutdownBody =
      ⟨[.delSelf "integrity_scan"], false,
        some (.attributeError "integrity_scan")⟩ :=
  C9_shutdown_first_statement_attribute_error.2.2.2

/-- Concrete instantiation of claim C10: a concrete Select invocation
raises NameError for the name CommandStatus. -/
theorem C10_witness :
    OutstationCommandHandler.Select (0 : Nat) 3 =
      .error (.nameError "CommandStatus") :=
  (C10_select_operate_raise_name_error.2.2 Nat Nat 0 3 0).1

/-! ## Command Result Aggregator: summary reduction (spec sections 3, 4.3) -/

/-- Task-level completion codes for a CommandTaskResult summary; the spec
(section 4.3) names SUCCESS, a TIMEOUT-classed failure code, a
PARTIAL-classed failure code and the Cancelled outcome used at shutdown. -/
inductive TaskSummary where
| SUCCESS
| TIMEOUT_FAILURE
| PARTIAL_FAILURE
| CANCELLED
deriving DecidableEq

/-- Per-point command state recorded in a CommandPointResult (spec
section 3): whether the point passed Select, failed Select, failed
Operate, or completed. -/
inductive CommandPointState where
| INIT
| SELECT_SUCCESS
| SELECT_FAIL
| OPERATE_FAIL
| COMPLETE
deriving DecidableEq

/-- CommandPointResult (spec section 3): headerIndex, index, pointState,
commandStatus — one per addressed point. -/
structure CommandPointResult where
  headerIndex : Nat
  index : Nat
  pointState : CommandPointState
  commandStatus : CommandStatus
deriving DecidableEq

/-- Modelled from the spec: the Command Result Aggregator's summary
reduction rule (spec sections 3 and 4.3); the aggregator is part of the
designed session core, absent from src/ — the examples delegate command
handling to the external opendnp3 stack. SUCCESS iff every item's
commandStatus is SUCCESS; otherwise the worst-case failure code: a
TIMEOUT-classed summary when any item timed out, else a PARTIAL-classed
summary. -/
def summaryOf (items : List CommandPointResult) : TaskSummary :=
  if ∀ r ∈ items, r.commandStatus = .SUCCESS then .SUCCESS
  else if ∃ r ∈ items, r.commandStatus = .TIMEOUT then .TIMEOUT_FAILURE
  else .PARTIAL_FAILURE

/-- Claim C1: the summary equals SUCCESS iff every item's commandStatus
equals SUCCESS, for all result sequences; the empty sequence yields
SUCCESS; a single-item sequence yields SUCCESS iff its one item
succeeded; and any single failing item forces the summary to a
TIMEOUT-classed or PARTIAL-classed failure code. -/
theorem C1_summary_success_iff_all_items_success :
    (∀ items : List CommandPointResult,
      (summaryOf items = .SUCCESS ↔ ∀ r ∈ items, r.commandStatus = .SUCCESS)) ∧
    summaryOf [] = .SUCCESS ∧
    (∀ r : CommandPointResult,
      (summaryOf [r] = .SUCCESS ↔ r.commandStatus = .SUCCESS)) ∧
    (∀ (items : List CommandPointResult) (r : CommandPointResult),
      r ∈ items → r.commandStatus ≠ .SUCCESS →
        summaryOf items = .TIMEOUT_FAILURE ∨
        summaryOf items = .PARTIAL_FAILURE) := by
  have hiff : ∀ items : List CommandPointResult,
      (summaryOf items = .SUCCESS ↔ ∀ r ∈ items, r.commandStatus = .SUCCESS) := by
    intro items
    unfold summaryOf
    split
    next h => exact iff_of_true rfl h
    next h =>
      split
      next => exact iff_of_false (by simp) h
      next => exact iff_of_false (by simp) h
  refine ⟨hiff, by simp [summaryOf], ?_, ?_⟩
  · intro r
    rw [hiff [r]]
    simp
  · intro items r hmem hfail
    unfold summaryOf
    have hnot : ¬ ∀ x ∈ items, x.commandStatus = CommandStatus.SUCCESS :=
      fun hall => hfail (hall r hmem)
    rw [if_neg hnot]
    split
    · exact Or.inl rfl
    · exact Or.inr rfl

/-- Concrete instantiation of claim C1's failing-item conjunct: a single
TIMEOUT item forces a failure-classed summary. -/
theorem C1_witness :
    summaryOf [⟨0, 7, .SELECT_FAIL, .TIMEOUT⟩] = .TIMEOUT_FAILURE ∨
    summaryOf [⟨0, 7, .SELECT_FAIL, .TIMEOUT⟩] = .PARTIAL_FAILURE :=
  C1_summary_success_iff_all_items_success.2.2.2
    [⟨0, 7, .SELECT_FAIL, .TIMEOUT⟩] ⟨0, 7, .SELECT_FAIL, .TIMEOUT⟩
    (by simp) (by decide)

/-! ## Command Result Aggregator: select-then-operate ordering (spec 4.3) -/

/-- A sub-operation issued by the aggregator to the outstation for one
addressed point. -/
inductive SubOp where
| selOp (index : Nat)
| opOp (index : Nat)
deriving DecidableEq

/-- The two command submission modes (spec section 3). -/
inductive CommandMode where
| DirectOperate
| SelectThenOperate
deriving DecidableEq

/-- Modelled from the spec: the Command Result Aggregator's execution of
one multi-point CommandRequest (spec section 4.3); the aggregator is part
of the designed session core, absent from src/. In SelectThenOperate mode
it issues the Select sub-operation for every addressed point first; only
points whose Select returned SUCCESS then get an Operate sub-operation,
and a point whose Select failed keeps the Select failure status (and a
SELECT_FAIL point state) in its CommandPointResult, while the other
points proceed independently. In DirectOperate mode Select is skipped
entirely. selSt and opSt are the per-point outcomes reported by the
outstation for the Select and Operate sub-operations. Returns the issued
sub-operation trace in order and the per-point results. -/
def runRequest (mode : CommandMode) (points : List Nat)
    (selSt opSt : Nat → CommandStatus) :
    List SubOp × List CommandPointResult :=
  match mode with
  | .DirectOperate =>
      (points.map SubOp.opOp,
       points.map (fun p =>
         ⟨0, p,
          if opSt p = .SUCCESS then .COMPLETE else .OPERATE_FAIL,
          opSt p⟩))
  | .SelectThenOperate =>
      (points.map SubOp.selOp
         ++ (points.filter (fun p => decide (selSt p = .SUCCESS))).map SubOp.opOp,
       points.map (fun p =>
         if selSt p = .SUCCESS then
           ⟨0, p,
            if opSt p = .SUCCESS then .COMPLETE else .OPERATE_FAIL,
            opSt p⟩
         else ⟨0, p, .SELECT_FAIL, selSt p⟩))

/-- Claim C2: in SelectThenOperate mode every Select sub-operation is
issued before any Operate sub-operation; a point receives an Operate iff
its own Select succeeded, so a point whose Select failed never receives
an Operate and its result carries the Select failure status, while other
points proceed independently; in DirectOperate mode no Select
sub-operation is ever issued. -/
theorem C2_select_then_operate_ordering :
    (∀ (points : List Nat) (selSt opSt : Nat → CommandStatus),
      (∃ ops, (runRequest .SelectThenOperate points selSt opSt).1 =
          points.map SubOp.selOp ++ ops ∧
          ∀ e ∈ ops, ∃ p, e = SubOp.opOp p ∧ p ∈ points ∧ selSt p = .SUCCESS) ∧
      (∀ p ∈ points,
        (SubOp.opOp p ∈ (runRequest .SelectThenOperate points selSt opSt).1 ↔
          selSt p = .SUCCESS)) ∧
      (∀ p ∈ points, selSt p ≠ .SUCCESS →
        SubOp.opOp p ∉ (runRequest .SelectThenOperate points selSt opSt).1 ∧
        ∃ r ∈ (runRequest .SelectThenOperate points selSt opSt).2,
          r.index = p ∧ r.commandStatus = selSt p ∧
          r.pointState = .SELECT_FAIL)) ∧
    (∀ (points : List Nat) (selSt opSt : Nat → CommandStatus) (p : Nat),
      SubOp.selOp p ∉ (runRequest .DirectOperate points selSt opSt).1) := by
  constructor
  · intro points selSt opSt
    have hmemOp : ∀ p : Nat,
        (SubOp.opOp p ∈ (runRequest .SelectThenOperate points selSt opSt).1 ↔
          p ∈ points ∧ selSt p = .SUCCESS) := by
      intro p
      simp only [runRequest, List.mem_append, List.mem_map, List.mem_filter]
      constructor
      · rintro (⟨q, _, hq⟩ | ⟨q, ⟨hqmem, hqsel⟩, hq⟩)
        · exact absurd hq (by simp)
        · obtain rfl : q = p := by injection hq
          exact ⟨hqmem, of_decide_eq_true hqsel⟩
      · rintro ⟨hpmem, hpsel⟩
        exact Or.inr ⟨p, ⟨hpmem, decide_eq_true hpsel⟩, rfl⟩
    refine ⟨?_, ?_, ?_⟩
    · refine ⟨(points.filter (fun p => decide (selSt p = .SUCCESS))).map SubOp.opOp,
        rfl, ?_⟩
      intro e he
      simp only [List.mem_map, List.mem_filter] at he
      obtain ⟨p, ⟨hpmem, hpsel⟩, rfl⟩ := he
      exact ⟨p, rfl, hpmem, of_decide_eq_true hpsel⟩
    · intro p hp
      rw [hmemOp p]
      exact ⟨fun h => h.2, fun h => ⟨hp, h⟩⟩
    · intro p hp hfail
      constructor
      · intro hin
        exact hfail ((hmemOp p).mp hin).2
      · refine ⟨⟨0, p, .SELECT_FAIL, selSt p⟩, ?_, rfl, rfl, rfl⟩
        simp only [runRequest, List.mem_map]
        exact ⟨p, hp, by rw [if_neg hfail]⟩
  · intro points selSt opSt p hin
    simp only [runRequest, List.mem_map] at hin
    obtain ⟨q, _, hq⟩ := hin
    exact absurd hq (by simp)

/-- Concrete instantiation of claim C2: for the two-point request where
point 1's Select succeeds and point 2's Select times out, point 2 never
receives an Operate and its result carries the TIMEOUT Select status. -/
theorem C2_witness :
    SubOp.opOp 2 ∉
      (runRequest .SelectThenOperate [1, 2]
        (fun p => if p = 1 then .SUCCESS else .TIMEOUT)
        (fun _ => .SUCCESS)).1 ∧
    ∃ r ∈ (runRequest .SelectThenOperate [1, 2]
        (fun p => if p = 1 then .SUCCESS else .TIMEOUT)
        (fun _ => .SUCCESS)).2,
      r.index = 2 ∧
      r.commandStatus = (fun p => if p = 1 then CommandStatus.SUCCESS
        else CommandStatus.TIMEOUT) 2 ∧
      r.pointState = .SELECT_FAIL :=
  ((C2_select_then_operate_ordering.1 [1, 2]
      (fun p => if p = 1 then .SUCCESS else .TIMEOUT)
      (fun _ => .SUCCESS)).2.2 2 (by simp) (by decide))

/-! ## Scan Scheduler (spec sections 3, 4.1, 7, 8) -/

/-- Point classes (spec section 3): Class0 static, Class1 to Class3 event
classes by priority. -/
inductive PointClass where
| Class0
| Class1
| Class2
| Class3
deriving DecidableEq

/-- Modelled from the spec: ScanTask (spec section 3): class mask, fixed
period, absolute next fire time; the Scan Scheduler is part of the
designed session core, absent from src/ — the examples delegate periodic
scanning to the external opendnp3 stack. -/
structure ScanTask where
  classMask : List PointClass
  period : Nat
  nextFireTime : Nat
deriving DecidableEq

/-- The Scan Scheduler's state: the registered tasks keyed by their
handle, and the next fresh handle. -/
structure Scheduler where
  tasks : List (Nat × ScanTask)
  nextHandle : Nat
deriving DecidableEq

/-- Modelled from the spec: addScan(classMask, period) (spec section 4.1)
registers a periodic scan and returns its handle; per the section 8
scenario, a scan registered at time now first fires one period later, so
its initial nextFireTime is now + period. -/
def addScan (s : Scheduler) (now : Nat) (classMask : List PointClass)
    (period : Nat) : Scheduler × Nat :=
  (⟨s.tasks ++ [(s.nextHandle, ⟨classMask, period, now + period⟩)],
    s.nextHandle + 1⟩,
   s.nextHandle)

/-- Modelled from the spec: cancel(handle) (spec section 4.1) removes the
task registered under the handle. -/
def cancelScan (s : Scheduler) (h : Nat) : Scheduler :=
  ⟨s.tasks.filter (fun ht => decide (ht.1 ≠ h)), s.nextHandle⟩

/-- State of the underlying channel as seen by the scheduler. -/
inductive ChannelState where
| Enabled
| Disabled
deriving DecidableEq

/-- The scan-path error taxonomy entry of spec section 7. -/
inductive ScanError where
| ChannelUnavailable
deriving DecidableEq

/-- Modelled from the spec: firing a task emits exactly one class-based
poll request on the underlying channel (spec section 4.1); emission fails
with ChannelUnavailable when the channel is not Enabled (section 7). -/
def emitPoll (chan : ChannelState) (classMask : List PointClass) :
    Except ScanError (List PointClass) :=
  match chan with
  | .Enabled => .ok classMask
  | .Disabled => .error .ChannelUnavailable

/-- A fire event: the handle of the task that fired and the tick time at
which it fired. -/
structure FireEvent where
  handle : Nat
  time : Nat
deriving DecidableEq

/-- The per-task state update of tick(now): a task due at now is
rescheduled to now + period (fixed-period, not drift-corrected); an
undue task is untouched. -/
def fireReschedule (now : Nat) (ht : Nat × ScanTask) : Nat × ScanTask :=
  if ht.2.nextFireTime ≤ now then
    (ht.1, ⟨ht.2.classMask, ht.2.period, now + ht.2.period⟩)
  else ht

/-- The per-task fire emission of tick(now): a due task fires iff its
poll emission succeeds; a ChannelUnavailable emission error is swallowed
silently (spec section 7), producing no event. -/
def fireEvent? (chan : ChannelState) (now : Nat) (ht : Nat × ScanTask) :
    Option FireEvent :=
  if ht.2.nextFireTime ≤ now then
    match emitPoll chan ht.2.classMask with
    | .ok _ => some ⟨ht.1, now⟩
    | .error _ => none
  else none

/-- Modelled from the spec: tick(now) (spec section 4.1) fires every task
whose nextFireTime ≤ now and reschedules each of them to now + period;
when the channel is not Enabled the fire is skipped silently and the task
is retried one period later; tick never fails and never drops a task. -/
def tick (chan : ChannelState) (now : Nat) (s : Scheduler) :
    Scheduler × List FireEvent :=
  (⟨s.tasks.map (fireReschedule now), s.nextHandle⟩,
   s.tasks.filterMap (fireEvent? chan now))

/-- Run tick over a sequence of times, collecting all fire events. -/
def runTicks (chan : ChannelState) (s : Scheduler) :
    List Nat → Scheduler × List FireEvent
| [] => (s, [])
| t :: ts =>
    let r1 := tick chan t s
    let r2 := runTicks chan r1.1 ts
    (r2.1, r1.2 ++ r2.2)

/-- The spec section 8 scenario scheduler: an all-classes scan of period
60 and a Class1 scan of period 5, both registered at t = 0; the slow scan
gets handle 0, the fast scan handle 1. -/
def scenarioSched : Scheduler :=
  ((addScan
      ((addScan ⟨[], 0⟩ 0 [.Class0, .Class1, .Class2, .Class3] 60).1)
      0 [.Class1] 5).1)

/-- The spec section 8 scenario tick times t = 0, 5, 10, ..., 60. -/
def scenarioTimes : List Nat :=
  [0, 5, 10, 15, 20, 25, 30, 35, 40, 45, 50, 55, 60]

/-- Rescheduling a task keeps its handle. -/
theorem fireReschedule_fst (now : Nat) (ht : Nat × ScanTask) :
    (fireReschedule now ht).1 = ht.1 := by
  unfold fireReschedule
  split <;> rfl

/-- tick keeps the handle list of the scheduler unchanged. -/
theorem tick_map_fst (chan : ChannelState) (now : Nat) (s : Scheduler) :
    (tick chan now s).1.tasks.map Prod.fst = s.tasks.map Prod.fst := by
  show (s.tasks.map (fireReschedule now)).map Prod.fst = s.tasks.map Prod.fst
  induction s.tasks with
  | nil => rfl
  | cons ht l ih => simp [fireReschedule_fst, ih]

/-- In a task list with no duplicate handles, a handle determines its
task. -/
theorem mem_unique_of_nodup_fst {l : List (Nat × ScanTask)}
    (hnd : (l.map Prod.fst).Nodup) {k : Nat} {a b : ScanTask}
    (ha : (k, a) ∈ l) (hb : (k, b) ∈ l) : a = b := by
  induction l with
  | nil => cases ha
  | cons x xs ih =>
    simp only [List.map_cons, List.nodup_cons] at hnd
    rcases List.mem_cons.mp ha with ha1 | ha1 <;>
      rcases List.mem_cons.mp hb with hb1 | hb1
    · injection ha1.trans hb1.symm
    · exfalso
      apply hnd.1
      have hk : k ∈ xs.map Prod.fst := List.mem_map_of_mem Prod.fst hb1
      rw [← ha1]
      exact hk
    · exfalso
      apply hnd.1
      have hk : k ∈ xs.map Prod.fst := List.mem_map_of_mem Prod.fst ha1
      rw [← hb1]
      exact hk
    · exact ih hnd.2 ha1 hb1

/-- A fire event of tick names a task of the scheduler that was due, and
carries the tick time. -/
theorem fire_event_exists {chan : ChannelState} {now : Nat} {s : Scheduler}
    {h tm : Nat} (hev : (⟨h, tm⟩ : FireEvent) ∈ (tick chan now s).2) :
    ∃ t : ScanTask, (h, t) ∈ s.tasks ∧ t.nextFireTime ≤ now ∧ tm = now := by
  obtain ⟨ht, hmem, hsome⟩ := List.mem_filterMap.mp hev
  unfold fireEvent? at hsome
  by_cases hdue : ht.2.nextFireTime ≤ now
  · rw [if_pos hdue] at hsome
    cases chan with
    | Enabled =>
      simp only [emitPoll, Option.some.injEq] at hsome
      refine ⟨ht.2, ?_, hdue, ?_⟩
      · have : ht.1 = h := congrArg FireEvent.handle hsome
        rw [← this]
        exact hmem
      · exact (congrArg FireEvent.time hsome).symm
    | Disabled => simp [emitPoll] at hsome
  · rw [if_neg hdue] at hsome
    cases hsome

/-- Claim C3: tick(now) fires exactly the tasks whose nextFireTime ≤ now
and reschedules each fired task to now + period, so a task fires at most
once per period however often tick is called; and in the section 8
scenario (60-second all-classes scan and 5-second Class1 scan registered
at t = 0, ticks at t = 0, 5, ..., 60) the 5-second scan fires exactly 12
times, at t = 5, 10, ..., 60, and the 60-second scan fires exactly once,
at t = 60. -/
theorem C3_tick_fires_due_tasks_once_per_period :
    (∀ (s : Scheduler) (now h : Nat) (t : ScanTask),
      (s.tasks.map Prod.fst).Nodup → (h, t) ∈ s.tasks →
      ((⟨h, now⟩ : FireEvent) ∈ (tick .Enabled now s).2 ↔
        t.nextFireTime ≤ now)) ∧
    (∀ (s : Scheduler) (now h : Nat) (t : ScanTask),
      (h, t) ∈ s.tasks → t.nextFireTime ≤ now →
      (h, ⟨t.classMask, t.period, now + t.period⟩) ∈
        (tick .Enabled now s).1.tasks) ∧
    (∀ (s : Scheduler) (now h : Nat) (t : ScanTask),
      (s.tasks.map Prod.fst).Nodup → (h, t) ∈ s.tasks →
      t.nextFireTime ≤ now →
      ∀ (chan : ChannelState) (now2 : Nat), now2 < now + t.period →
        (⟨h, now2⟩ : FireEvent) ∉
          (tick chan now2 (tick .Enabled now s).1).2) ∧
    (((runTicks .Enabled scenarioSched scenarioTimes).2.filter
        (fun e => e.handle == 1)).map FireEvent.time =
      [5, 10, 15, 20, 25, 30, 35, 40, 45, 50, 55, 60] ∧
     ((runTicks .Enabled scenarioSched scenarioTimes).2.filter
        (fun e => e.handle == 1)).length = 12 ∧
     ((runTicks .Enabled scenarioSched scenarioTimes).2.filter
        (fun e => e.handle == 0)).map FireEvent.time = [60] ∧
     ((runTicks .Enabled scenarioSched scenarioTimes).2.filter
        (fun e => e.handle == 0)).length = 1) := by
  have hfire : ∀ (s : Scheduler) (now h : Nat) (t : ScanTask),
      (h, t) ∈ s.tasks → t.nextFireTime ≤ now →
      (⟨h, now⟩ : FireEvent) ∈ (tick .Enabled now s).2 := by
    intro s now h t hmem hdue
    apply List.mem_filterMap.mpr
    refine ⟨(h, t), hmem, ?_⟩
    simp [fireEvent?, emitPoll, hdue]
  have hresched : ∀ (s : Scheduler) (now h : Nat) (t : ScanTask),
      (h, t) ∈ s.tasks → t.nextFireTime ≤ now →
      (h, ⟨t.classMask, t.period, now + t.period⟩) ∈
        (tick .Enabled now s).1.tasks := by
    intro s now h t hmem hdue
    apply List.mem_map.mpr
    refine ⟨(h, t), hmem, ?_⟩
    simp [fireReschedule, hdue]
  refine ⟨?_, hresched, ?_, ?_⟩
  · intro s now h t hnd hmem
    constructor
    · intro hev
      obtain ⟨t2, hmem2, hdue2, _⟩ := fire_event_exists hev
      rw [mem_unique_of_nodup_fst hnd hmem hmem2]
      exact hdue2
    · exact hfire s now h t hmem
  · intro s now h t hnd hmem hdue chan now2 hlt hev
    obtain ⟨t2, hmem2, hdue2, _⟩ := fire_event_exists hev
    have hnd2 : ((tick .Enabled now s).1.tasks.map Prod.fst).Nodup := by
      rw [tick_map_fst]
      exact hnd
    have heq : t2 = ⟨t.classMask, t.period, now + t.period⟩ :=
      mem_unique_of_nodup_fst hnd2 hmem2 (hresched s now h t hmem hdue)
    rw [heq] at hdue2
    exact absurd hdue2 (by simpa using Nat.not_le.mpr hlt)
  · exact ⟨by decide, by decide, by decide, by decide⟩

/-- Concrete instantiation of claim C3: in the section 8 scenario the
Class1 scan (handle 1, period 5, first due at t = 5) does fire at the
t = 5 tick. -/
theorem C3_witness :
    (⟨1, 5⟩ : FireEvent) ∈ (tick .Enabled 5 scenarioSched).2 :=
  ((C3_tick_fires_due_tasks_once_per_period.1 scenarioSched 5 1
      ⟨[.Class1], 5, 5⟩ (by decide) (by decide)).mpr (by decide))

/-- Claim C8: when the channel is not Enabled, emitting the poll fails
with ChannelUnavailable, and tick swallows that failure silently: it
fires nothing, keeps every task scheduled (same handles, same number of
tasks), reschedules the tasks that were due to now + period so they are
retried one period later, and leaves undue tasks untouched; the
scheduler itself never fails. -/
theorem C8_disabled_channel_skips_fires_keeps_tasks :
    ∀ chan : ChannelState, chan ≠ .Enabled →
      (∀ cm : List PointClass,
        emitPoll chan cm = .error .ChannelUnavailable) ∧
      (∀ (s : Scheduler) (now : Nat),
        (tick chan now s).2 = [] ∧
        (tick chan now s).1.tasks.map Prod.fst = s.tasks.map Prod.fst ∧
        (tick chan now s).1.tasks.length = s.tasks.length ∧
        ∀ (h : Nat) (t : ScanTask), (h, t) ∈ s.tasks →
          (t.nextFireTime ≤ now →
            (h, ⟨t.classMask, t.period, now + t.period⟩) ∈
              (tick chan now s).1.tasks) ∧
          (¬ t.nextFireTime ≤ now →
            (h, t) ∈ (tick chan now s).1.tasks)) := by
  intro chan hne
  cases chan with
  | Enabled => exact absurd rfl hne
  | Disabled =>
    refine ⟨fun cm => rfl, ?_⟩
    intro s now
    refine ⟨?_, tick_map_fst _ _ _, ?_, ?_⟩
    · apply List.filterMap_eq_nil_iff.mpr
      intro ht _
      unfold fireEvent?
      split
      · rfl
      · rfl
    · show (s.tasks.map (fireReschedule now)).length = s.tasks.length
      exact List.length_map _ _
    · intro h t hmem
      constructor
      · intro hdue
        apply List.mem_map.mpr
        exact ⟨(h, t), hmem, by simp [fireReschedule, hdue]⟩
      · intro hdue
        apply List.mem_map.mpr
        exact ⟨(h, t), hmem, by simp [fireReschedule, hdue]⟩

/-- Concrete instantiation of claim C8: a tick at t = 5 over the section
8 scenario scheduler with the channel Disabled fires nothing, and the
poll emission error it swallowed is ChannelUnavailable. -/
theorem C8_witness :
    (tick .Disabled 5 scenarioSched).2 = [] ∧
    emitPoll .Disabled [PointClass.Class1] = .error .ChannelUnavailable :=
  ⟨((C8_disabled_channel_skips_fires_keeps_tasks .Disabled
      (by decide)).2 scenarioSched 5).1,
   (C8_disabled_channel_skips_fires_keeps_tasks .Disabled
      (by decide)).1 [PointClass.Class1]⟩

/-! ## Measurement Dispatcher (spec sections 3, 4.2) -/

/-- MeasurementType (spec section 3): the closed nine-element set of
semantic measurement kinds. -/
inductive MeasurementType where
| Binary
| DoubleBitBinary
| Analog
| Counter
| FrozenCounter
| BinaryOutputStatus
| AnalogOutputStatus
| OctetString
| TimeAndInterval
deriving DecidableEq

/-- The closed enumeration of all nine MeasurementType values. -/
def allMeasurementTypes : List MeasurementType :=
  [.Binary, .DoubleBitBinary, .Analog, .Counter, .FrozenCounter,
   .BinaryOutputStatus, .AnalogOutputStatus, .OctetString, .TimeAndInterval]

/-- IndexedValue (spec section 3): index, value, quality flags, optional
timestamp. -/
structure IndexedValue where
  index : Nat
  value : Int
  flags : Nat
  timestamp : Option Nat
deriving DecidableEq

/-- The originating header's group/variation context of a batch, constant
across the whole batch and supplied once (spec section 4.2). -/
structure HeaderInfo where
  group : Nat
  variation : Nat
  headerIndex : Nat
deriving DecidableEq

/-- The setup-time error taxonomy entry of spec section 7: an
unregistered MeasurementType is a ConfigurationError, fatal at setup. -/
inductive ConfigError where
| ConfigurationError (missing : MeasurementType)
deriving DecidableEq

/-- A constructed Measurement Dispatcher: a total mapping from the closed
MeasurementType set to per-type handler identifiers, resolved once per
batch. -/
structure Dispatcher where
  handlerOf : MeasurementType → Nat

/-- One delivery performed by process: the handler that received the
batch, the entries in arrival order, and the batch header context. -/
structure Delivery where
  handlerId : Nat
  entries : List IndexedValue
  header : HeaderInfo
deriving DecidableEq

/-- Modelled from the spec: dispatcher construction (spec sections 4.2
and 7); the Measurement Dispatcher is part of the designed session core,
absent from src/ — the example's SOEHandler is commented out and
measurement dispatch is delegated to the external opendnp3 stack.
Construction checks that the registration table covers the closed
MeasurementType enumeration and fails with ConfigurationError on the
first unregistered type. -/
def mkDispatcher (table : MeasurementType → Option Nat) :
    Except ConfigError Dispatcher :=
  match allMeasurementTypes.find? (fun mt => (table mt).isNone) with
  | some mt => .error (.ConfigurationError mt)
  | none => .ok ⟨fun mt => (table mt).getD 0⟩

/-- Modelled from the spec: process(batchType, entries, headerInfo) (spec
section 4.2) resolves the handler once per batch, purely from batchType,
and delivers the whole batch with its constant header context to that
handler only; the result maps each handler id to the deliveries it
received. -/
def Dispatcher.process (d : Dispatcher) (batchType : MeasurementType)
    (entries : List IndexedValue) (hi : HeaderInfo) :
    Nat → List Delivery :=
  fun hid => if hid = d.handlerOf batchType then [⟨hid, entries, hi⟩] else []

/-- Claim C4: every MeasurementType value is in the closed nine-element
enumeration; for a dispatcher built from a fully-registered table,
process routes the entries (with their header context) to the handler
selected purely by batchType and to no other handler, independently of
the entries themselves; construction succeeds exactly when the table is
total over the enumeration, and an unregistered MeasurementType fails
with ConfigurationError. -/
theorem C4_process_routes_by_batch_type :
    (∀ mt : MeasurementType, mt ∈ allMeasurementTypes) ∧
    (∀ (table : MeasurementType → Option Nat) (d : Dispatcher),
      mkDispatcher table = .ok d →
      ∀ (mt : MeasurementType) (entries : List IndexedValue)
        (hi : HeaderInfo),
        d.process mt entries hi (d.handlerOf mt) =
          [⟨d.handlerOf mt, entries, hi⟩] ∧
        (∀ hid : Nat, hid ≠ d.handlerOf mt →
          d.process mt entries hi hid = []) ∧
        (∀ (entries2 : List IndexedValue) (hi2 : HeaderInfo) (hid : Nat)
          (dl : Delivery), dl ∈ d.process mt entries2 hi2 hid →
          dl.handlerId = d.handlerOf mt)) ∧
    (∀ table : MeasurementType → Option Nat,
      ((∃ d, mkDispatcher table = .ok d) ↔
        ∀ mt : MeasurementType, (table mt).isSome)) ∧
    (∀ (table : MeasurementType → Option Nat) (mt : MeasurementType),
      table mt = none →
      ∃ mt2, mkDispatcher table = .error (.ConfigurationError mt2) ∧
        table mt2 = none) := by
  have hall : ∀ mt : MeasurementType, mt ∈ allMeasurementTypes := by
    intro mt
    cases mt <;> decide
  refine ⟨hall, ?_, ?_, ?_⟩
  · intro table d _ mt entries hi
    refine ⟨by simp [Dispatcher.process], ?_, ?_⟩
    · intro hid hne
      simp [Dispatcher.process, hne]
    · intro entries2 hi2 hid dl hdl
      simp only [Dispatcher.process] at hdl
      by_cases hcase : hid = d.handlerOf mt
      · rw [if_pos hcase] at hdl
        rw [List.mem_singleton.mp hdl]
        exact hcase
      · rw [if_neg hcase] at hdl
        cases hdl
  · intro table
    constructor
    · rintro ⟨d, hd⟩ mt
      unfold mkDispatcher at hd
      rcases hfind : allMeasurementTypes.find? (fun mt => (table mt).isNone)
        with _ | mt2
      · have := List.find?_eq_none.mp hfind mt (hall mt)
        simpa [Option.isNone_iff_eq_none, ← Option.ne_none_iff_isSome]
          using this
      · rw [hfind] at hd
        cases hd
    · intro htotal
      refine ⟨⟨fun mt => (table mt).getD 0⟩, ?_⟩
      unfold mkDispatcher
      rcases hfind : allMeasurementTypes.find? (fun mt => (table mt).isNone)
        with _ | mt2
      · rfl
      · exfalso
        have := List.find?_some hfind
        rw [Option.isNone_iff_eq_none] at this
        have h2 := htotal mt2
        rw [this] at h2
        cases h2
  · intro table mt hnone
    unfold mkDispatcher
    rcases hfind : allMeasurementTypes.find? (fun mt => (table mt).isNone)
      with _ | mt2
    · exfalso
      have := List.find?_eq_none.mp hfind mt (hall mt)
      rw [hnone] at this
      exact this rfl
    · refine ⟨mt2, rfl, ?_⟩
      have := List.find?_some hfind
      exact Option.isNone_iff_eq_none.mp this

/-- Concrete instantiation of claim C4: with the identity-coded total
table, the Analog batch goes to the Analog handler and the Binary handler
receives nothing; removing the Counter registration yields
ConfigurationError. -/
theorem C4_witness :
    (Dispatcher.mk (fun mt => ((fun t => some (allMeasurementTypes.indexOf t))
        mt).getD 0)).process .Analog [⟨3, 14, 0, none⟩] ⟨30, 1, 0⟩
      ((Dispatcher.mk (fun mt =>
        ((fun t => some (allMeasurementTypes.indexOf t)) mt).getD 0)).handlerOf
          .Analog) =
      [⟨(Dispatcher.mk (fun mt =>
        ((fun t => some (allMeasurementTypes.indexOf t)) mt).getD 0)).handlerOf
          .Analog, [⟨3, 14, 0, none⟩], ⟨30, 1, 0⟩⟩] ∧
    ∃ mt2, mkDispatcher (fun t => if t = .Counter then none
        else some (allMeasurementTypes.indexOf t)) =
      .error (.ConfigurationError mt2) ∧
      (fun t => if t = .Counter then none
        else some (allMeasurementTypes.indexOf t)) mt2 = none := by
  constructor
  · have hok : mkDispatcher (fun t => some (allMeasurementTypes.indexOf t)) =
        .ok (Dispatcher.mk (fun mt =>
          ((fun t => some (allMeasurementTypes.indexOf t)) mt).getD 0)) := by
      unfold mkDispatcher
      rfl
    exact (C4_process_routes_by_batch_type.2.1
      (fun t => some (allMeasurementTypes.indexOf t)) _ hok .Analog
      [⟨3, 14, 0, none⟩] ⟨30, 1, 0⟩).1
  · exact C4_process_routes_by_batch_type.2.2.2
      (fun t => if t = .Counter then none
        else some (allMeasurementTypes.indexOf t)) .Counter (by decide)

/-! ## Command Result Aggregator: pending table and completion delivery
(spec sections 4.3, 5) -/

/-- A pending command request tracked by the aggregator: per-point
statuses, none for a point whose sub-operations have not resolved yet. -/
structure PendingRequest where
  items : List (Nat × Option CommandStatus)
deriving DecidableEq

/-- How a request completes: a normal stack completion carrying per-point
statuses, a timeout, or a channel disconnection. -/
inductive CompletionKind where
| normal (statuses : Nat → CommandStatus)
| timeout
| disconnect

/-- One callback invocation: the request id and the terminal per-point
statuses delivered to the registered callback. -/
structure Invocation where
  reqId : Nat
  result : List (Nat × CommandStatus)
deriving DecidableEq

/-- Modelled from the spec: terminal marking (spec section 4.3); the
aggregator is part of the designed session core, absent from src/. On a
timeout every unresolved item is marked with the terminal TIMEOUT status,
on a channel disconnection with the terminal NO_RESPONSE status, before
the callback fires; already-resolved items keep their status. -/
def resolveItems (ck : CompletionKind)
    (items : List (Nat × Option CommandStatus)) :
    List (Nat × CommandStatus) :=
  match ck with
  | .normal st => items.map (fun it => (it.1, it.2.getD (st it.1)))
  | .timeout => items.map (fun it => (it.1, it.2.getD .TIMEOUT))
  | .disconnect => items.map (fun it => (it.1, it.2.getD .NO_RESPONSE))

/-- Modelled from the spec: completion delivery (spec section 5); the
pending-command table is keyed by the unique request id assigned at
submit time, and delivery removes the entry atomically with invoking the
callback, so a second completion for the same id finds no entry and
invokes nothing. -/
def deliver (tbl : List (Nat × PendingRequest)) (id : Nat)
    (ck : CompletionKind) :
    List (Nat × PendingRequest) × List Invocation :=
  match tbl.find? (fun e => e.1 == id) with
  | some e => (tbl.filter (fun e2 => decide (e2.1 ≠ id)),
               [⟨id, resolveItems ck e.2.items⟩])
  | none => (tbl, [])

/-- Deliver a sequence of completions in order, collecting all callback
invocations. -/
def deliverAll (tbl : List (Nat × PendingRequest)) :
    List (Nat × CompletionKind) →
    List (Nat × PendingRequest) × List Invocation
| [] => (tbl, [])
| (id, ck) :: rest =>
    let r1 := deliver tbl id ck
    let r2 := deliverAll r1.1 rest
    (r2.1, r1.2 ++ r2.2)

/-- Delivering a completion for a request not in the table invokes
nothing, and delivering any completion never adds the id back. -/
theorem deliver_of_not_mem {tbl : List (Nat × PendingRequest)}
    {id : Nat} (j : Nat) (ck : CompletionKind)
    (hid : id ∉ tbl.map Prod.fst) :
    id ∉ (deliver tbl j ck).1.map Prod.fst ∧
    (deliver tbl j ck).2.countP (fun inv => decide (inv.reqId = id)) = 0 := by
  rcases hfind : tbl.find? (fun e => e.1 == j) with _ | e
  · unfold deliver
    rw [hfind]
    exact ⟨hid, rfl⟩
  · have hej : e.1 = j := by
      have := List.find?_some hfind
      simpa using this
    have hemem : e ∈ tbl := List.mem_of_find?_eq_some hfind
    have hjne : j ≠ id := by
      intro hcontra
      apply hid
      rw [← hcontra, ← hej]
      exact List.mem_map_of_mem Prod.fst hemem
    unfold deliver
    rw [hfind]
    constructor
    · intro hmem
      apply hid
      obtain ⟨x, hx, hx1⟩ := List.mem_map.mp hmem
      have hx2 : x ∈ tbl := List.mem_of_mem_filter hx
      rw [← hx1]
      exact List.mem_map_of_mem Prod.fst hx2
    · simp [hjne]

/-- Delivering completions over a table that does not contain the id
never invokes the id's callback. -/
theorem deliverAll_zero_of_not_mem {id : Nat} :
    ∀ (ds : List (Nat × CompletionKind)) (tbl : List (Nat × PendingRequest)),
      id ∉ tbl.map Prod.fst →
      (deliverAll tbl ds).2.countP (fun inv => decide (inv.reqId = id)) = 0
| [], _, _ => rfl
| (j, ck) :: rest, tbl, hid => by
    have h1 := @deliver_of_not_mem tbl id j ck hid
    show ((deliver tbl j ck).2 ++
      (deliverAll (deliver tbl j ck).1 rest).2).countP
        (fun inv => decide (inv.reqId = id)) = 0
    rw [List.countP_append, h1.2,
      deliverAll_zero_of_not_mem rest (deliver tbl j ck).1 h1.1]

/-- Delivering a completion for a present id invokes its callback exactly
once and removes the id from the table. -/
theorem deliver_self_once {tbl : List (Nat × PendingRequest)} {id : Nat}
    (ck : CompletionKind) (hid : id ∈ tbl.map Prod.fst) :
    (deliver tbl id ck).2.countP (fun inv => decide (inv.reqId = id)) = 1 ∧
    id ∉ (deliver tbl id ck).1.map Prod.fst := by
  rcases hfind : tbl.find? (fun e => e.1 == id) with _ | e
  · exfalso
    obtain ⟨k, hk, hk1⟩ := List.mem_map.mp hid
    have := List.find?_eq_none.mp hfind k hk
    apply this
    simp [hk1]
  · unfold deliver
    rw [hfind]
    constructor
    · simp
    · intro hmem
      obtain ⟨x, hx, hx1⟩ := List.mem_map.mp hmem
      have := List.of_mem_filter hx
      rw [hx1] at this
      exact (of_decide_eq_true this) rfl

/-- Delivering a completion for a different id invokes nothing for this
id and keeps this id in the table. -/
theorem deliver_other_keeps {tbl : List (Nat × PendingRequest)}
    {id j : Nat} (ck : CompletionKind) (hne : j ≠ id)
    (hid : id ∈ tbl.map Prod.fst) :
    (deliver tbl j ck).2.countP (fun inv => decide (inv.reqId = id)) = 0 ∧
    id ∈ (deliver tbl j ck).1.map Prod.fst := by
  rcases hfind : tbl.find? (fun e => e.1 == j) with _ | e
  · unfold deliver
    rw [hfind]
    exact ⟨rfl, hid⟩
  · unfold deliver
    rw [hfind]
    constructor
    · simp [hne]
    · obtain ⟨x, hx, hx1⟩ := List.mem_map.mp hid
      apply List.mem_map.mpr
      refine ⟨x, ?_, hx1⟩
      apply List.mem_filter.mpr
      refine ⟨hx, ?_⟩
      apply decide_eq_true
      rw [hx1]
      exact fun hcontra => hne hcontra.symm

/-- With no duplicate request ids, the table lookup finds exactly the
stored entry. -/
theorem find_entry_of_nodup :
    ∀ {tbl : List (Nat × PendingRequest)},
      (tbl.map Prod.fst).Nodup →
      ∀ {id : Nat} {e : PendingRequest}, (id, e) ∈ tbl →
      tbl.find? (fun x => x.1 == id) = some (id, e) := by
  intro tbl
  induction tbl with
  | nil => intro _ id e hmem; cases hmem
  | cons x xs ih =>
    intro hnd id e hmem
    simp only [List.map_cons, List.nodup_cons] at hnd
    rcases List.mem_cons.mp hmem with hmem1 | hmem1
    · rw [← hmem1]
      simp [List.find?_cons]
    · have hx1 : x.1 ≠ id := by
        intro hcontra
        apply hnd.1
        rw [hcontra]
        exact List.mem_map_of_mem Prod.fst hmem1
      rw [List.find?_cons]
      have : (x.1 == id) = false := by
        simpa using hx1
      rw [this]
      exact ih hnd.2 hmem1

/-- Claim C6: for every submitted request that is in the pending table,
any completion sequence containing at least one completion for it fires
its callback exactly once — never zero times and never twice; and on a
timeout or channel-disconnection completion, every unresolved item of the
request is marked with the terminal TIMEOUT (resp. NO_RESPONSE) status in
the result handed to the single callback invocation. -/
theorem C6_callback_exactly_once :
    (∀ (tbl : List (Nat × PendingRequest)) (id : Nat),
      id ∈ tbl.map Prod.fst →
      ∀ ds : List (Nat × CompletionKind), (∃ d ∈ ds, d.1 = id) →
        (deliverAll tbl ds).2.countP
          (fun inv => decide (inv.reqId = id)) = 1) ∧
    (∀ (tbl : List (Nat × PendingRequest)) (id : Nat)
      (e : PendingRequest), (tbl.map Prod.fst).Nodup → (id, e) ∈ tbl →
      (deliver tbl id .timeout).2 =
        [⟨id, resolveItems .timeout e.items⟩] ∧
      (deliver tbl id .disconnect).2 =
        [⟨id, resolveItems .disconnect e.items⟩] ∧
      (∀ it ∈ e.items, it.2 = none →
        (it.1, CommandStatus.TIMEOUT) ∈ resolveItems .timeout e.items) ∧
      (∀ it ∈ e.items, it.2 = none →
        (it.1, CommandStatus.NO_RESPONSE) ∈
          resolveItems .disconnect e.items)) := by
  constructor
  · intro tbl id hid ds
    induction ds generalizing tbl with
    | nil => rintro ⟨d, hd, _⟩; cases hd
    | cons dhead rest ih =>
      rintro ⟨d, hd, hdid⟩
      obtain ⟨j, ck⟩ := dhead
      show ((deliver tbl j ck).2 ++
        (deliverAll (deliver tbl j ck).1 rest).2).countP
          (fun inv => decide (inv.reqId = id)) = 1
      rw [List.countP_append]
      by_cases hji : j = id
      · subst hji
        have h1 := @deliver_self_once tbl j ck hid
        rw [h1.1, deliverAll_zero_of_not_mem rest (deliver tbl j ck).1 h1.2]
      · have h1 := @deliver_other_keeps tbl id j ck hji hid
        rw [h1.1]
        have hrest : ∃ d2 ∈ rest, d2.1 = id := by
          rcases List.mem_cons.mp hd with hd1 | hd1
          · exfalso
            apply hji
            rw [← hdid, hd1]
          · exact ⟨d, hd1, hdid⟩
        rw [ih (deliver tbl j ck).1 h1.2 hrest]
  · intro tbl id e hnd hmem
    have hfind := find_entry_of_nodup hnd hmem
    refine ⟨?_, ?_, ?_, ?_⟩
    · unfold deliver
      rw [hfind]
    · unfold deliver
      rw [hfind]
    · intro it hit hnone
      apply List.mem_map.mpr
      refine ⟨it, hit, ?_⟩
      rw [hnone]
      rfl
    · intro it hit hnone
      apply List.mem_map.mpr
      refine ⟨it, hit, ?_⟩
      rw [hnone]
      rfl

/-- Concrete instantiation of claim C6: a pending request with one
unresolved and one resolved point, hit by two timeout completions for the
same id, fires its callback exactly once. -/
theorem C6_witness :
    (deliverAll [(1, ⟨[(4, none), (5, some .SUCCESS)]⟩)]
        [(1, .timeout), (1, .timeout)]).2.countP
      (fun inv => decide (inv.reqId = 1)) = 1 :=
  C6_callback_exactly_once.1 [(1, ⟨[(4, none), (5, some .SUCCESS)]⟩)] 1
    (by decide) [(1, .timeout), (1, .timeout)]
    ⟨(1, .timeout), List.mem_cons_self _ _, rfl⟩

/-! ## Session Lifecycle (spec sections 4.4, 7) -/

/-- The session lifecycle states of spec section 4.4: Created, Enabled,
Shutdown; no transition leads out of Shutdown. -/
inductive SessionState where
| Created
| Enabled
| Shutdown
deriving DecidableEq

/-- The Session Lifecycle's state: lifecycle phase, the owned Scan
Scheduler, the pending-command table, the next fresh request id, the
Measurement Dispatcher registration and the channel/stack handle. -/
structure Session where
  state : SessionState
  sched : Scheduler
  pending : List (Nat × PendingRequest)
  nextReqId : Nat
  dispatcherRegistered : Bool
  channelHeld : Bool
deriving DecidableEq

/-- One observable step of the shutdown sequence. -/
inductive ShutEvent where
| cancelScanEv (handle : Nat)
| failPendingEv (reqId : Nat) (summary : TaskSummary)
| releaseDispatcherEv
| releaseChannelEv
deriving DecidableEq

/-- Modelled from the spec: Session Lifecycle shutdown (spec section
4.4); the lifecycle is part of the designed session core, absent from
src/ (the examples tear down by unguarded attribute deletion, the defect
the spec's design replaces). Shutdown cancels all outstanding scan tasks,
fails every still-pending command with a Cancelled status through its one
pending-table entry, releases the dispatcher registration and only then
releases the channel/stack handle; the state becomes Shutdown for good. -/
def Session.shutdown (s : Session) : Session × List ShutEvent :=
  (⟨.Shutdown, ⟨[], s.sched.nextHandle⟩, [], s.nextReqId, false, false⟩,
   s.sched.tasks.map (fun ht => .cancelScanEv ht.1)
     ++ s.pending.map (fun pr => .failPendingEv pr.1 .CANCELLED)
     ++ [.releaseDispatcherEv, .releaseChannelEv])

/-- Modelled from the spec: the session-level tick (spec sections 4.4 and
5) runs the owned Scan Scheduler only while the session is Enabled; after
shutdown no scan fires. -/
def sessionTick (s : Session) (chan : ChannelState) (now : Nat) :
    Session × List FireEvent :=
  if s.state = .Enabled then
    (⟨s.state, (tick chan now s.sched).1, s.pending, s.nextReqId,
       s.dispatcherRegistered, s.channelHeld⟩,
     (tick chan now s.sched).2)
  else (s, [])

/-- The post-shutdown submission error of spec section 7. -/
inductive SubmitError where
| ShutdownInProgress
deriving DecidableEq

/-- Modelled from the spec: submit (spec sections 4.3 and 7): a submit
made after shutdown begins fails immediately with the value-returned
ShutdownInProgress error and queues nothing; otherwise the request enters
the pending table under a fresh id, which is returned. -/
def Session.submit (s : Session)
    (items : List (Nat × Option CommandStatus)) :
    Session × Except SubmitError Nat :=
  if s.state = .Shutdown then (s, .error .ShutdownInProgress)
  else
    (⟨s.state, s.sched, s.pending ++ [(s.nextReqId, ⟨items⟩)],
       s.nextReqId + 1, s.dispatcherRegistered, s.channelHeld⟩,
     .ok s.nextReqId)

/-- Modelled from the spec: addScan on the session (spec sections 4.1 and
7): fails immediately with the value-returned ShutdownInProgress error
after shutdown begins, else registers the scan and returns its handle. -/
def Session.addScanS (s : Session) (now : Nat) (cm : List PointClass)
    (period : Nat) : Session × Except SubmitError Nat :=
  if s.state = .Shutdown then (s, .error .ShutdownInProgress)
  else
    (⟨s.state, (addScan s.sched now cm period).1, s.pending, s.nextReqId,
       s.dispatcherRegistered, s.channelHeld⟩,
     .ok (addScan s.sched now cm period).2)

/-- In a pending table with no duplicate request ids, exactly one entry
carries a stored request's id. -/
theorem countP_key_eq_one :
    ∀ (l : List (Nat × PendingRequest)), (l.map Prod.fst).Nodup →
      ∀ pr ∈ l, l.countP (fun pr2 => decide (pr2.1 = pr.1)) = 1 := by
  intro l
  induction l with
  | nil => intro _ pr hpr; cases hpr
  | cons x xs ih =>
    intro hnd pr hpr
    simp only [List.map_cons, List.nodup_cons] at hnd
    rcases List.mem_cons.mp hpr with hpr1 | hpr1
    · rw [List.countP_cons_of_pos _ _ (by rw [hpr1]; simp)]
      have hzero : xs.countP (fun pr2 => decide (pr2.1 = pr.1)) = 0 := by
        apply List.countP_eq_zero.mpr
        intro y hy
        simp only [decide_eq_true_eq]
        intro hcontra
        apply hnd.1
        rw [← hpr1, ← hcontra]
        exact List.mem_map_of_mem Prod.fst hy
      rw [hzero]
    · have hne : x.1 ≠ pr.1 := by
        intro hcontra
        apply hnd.1
        rw [hcontra]
        exact List.mem_map_of_mem Prod.fst hpr1
      rw [List.countP_cons_of_neg _ _ (by simpa using hne)]
      exact ih hnd.2 pr hpr1

/-- Claim C5: shutdown emits its steps in order — first the scan-task
cancellations, then the Cancelled failure of every still-pending command,
then the dispatcher release, and only then, last of all, the
channel/stack release; afterwards the state is Shutdown with nothing
owned, session ticks fire no scan and change nothing, each previously
pending command was resolved with Cancelled exactly once, and a later
completion delivery invokes no callback (no double callback). -/
theorem C5_shutdown_order_and_drain :
    ∀ s : Session,
      (∃ pre, (Session.shutdown s).2 =
          pre ++ [.releaseDispatcherEv, .releaseChannelEv] ∧
        (∃ cancels fails, pre = cancels ++ fails ∧
          (∀ e ∈ cancels, ∃ h, e = ShutEvent.cancelScanEv h) ∧
          (∀ e ∈ fails, ∃ i, e = ShutEvent.failPendingEv i .CANCELLED)) ∧
        (∀ ht ∈ s.sched.tasks, ShutEvent.cancelScanEv ht.1 ∈ pre) ∧
        (∀ pr ∈ s.pending,
          ShutEvent.failPendingEv pr.1 .CANCELLED ∈ pre)) ∧
      (Session.shutdown s).1.state = .Shutdown ∧
      (Session.shutdown s).1.sched.tasks = [] ∧
      (Session.shutdown s).1.pending = [] ∧
      (Session.shutdown s).1.dispatcherRegistered = false ∧
      (Session.shutdown s).1.channelHeld = false ∧
      (∀ (chan : ChannelState) (now : Nat),
        (sessionTick (Session.shutdown s).1 chan now).2 = [] ∧
        (sessionTick (Session.shutdown s).1 chan now).1 =
          (Session.shutdown s).1) ∧
      ((s.pending.map Prod.fst).Nodup → ∀ pr ∈ s.pending,
        (Session.shutdown s).2.countP
          (fun e => decide (e = ShutEvent.failPendingEv pr.1 .CANCELLED)) =
          1) ∧
      (∀ (id : Nat) (ck : CompletionKind),
        (deliver (Session.shutdown s).1.pending id ck).2 = []) := by
  intro s
  refine ⟨?_, rfl, rfl, rfl, rfl, rfl, ?_, ?_, ?_⟩
  · refine ⟨s.sched.tasks.map (fun ht => .cancelScanEv ht.1)
      ++ s.pending.map (fun pr => .failPendingEv pr.1 .CANCELLED),
      by simp [Session.shutdown], ?_, ?_, ?_⟩
    · refine ⟨s.sched.tasks.map (fun ht => .cancelScanEv ht.1),
        s.pending.map (fun pr => .failPendingEv pr.1 .CANCELLED),
        rfl, ?_, ?_⟩
      · intro e he
        obtain ⟨ht, _, rfl⟩ := List.mem_map.mp he
        exact ⟨ht.1, rfl⟩
      · intro e he
        obtain ⟨pr, _, rfl⟩ := List.mem_map.mp he
        exact ⟨pr.1, rfl⟩
    · intro ht hht
      apply List.mem_append_left
      exact List.mem_map_of_mem _ hht
    · intro pr hpr
      apply List.mem_append_right
      exact List.mem_map_of_mem _ hpr
  · intro chan now
    constructor
    · rfl
    · rfl
  · intro hnd pr hpr
    show ((s.sched.tasks.map (fun ht => ShutEvent.cancelScanEv ht.1)
        ++ s.pending.map (fun pr2 => ShutEvent.failPendingEv pr2.1 .CANCELLED))
        ++ [ShutEvent.releaseDispatcherEv,
            ShutEvent.releaseChannelEv]).countP
      (fun e => decide (e = ShutEvent.failPendingEv pr.1 .CANCELLED)) = 1
    rw [List.countP_append, List.countP_append]
    have hc : (s.sched.tasks.map
        (fun ht => ShutEvent.cancelScanEv ht.1)).countP
        (fun e => decide (e = ShutEvent.failPendingEv pr.1 .CANCELLED)) =
        0 := by
      apply List.countP_eq_zero.mpr
      intro e he
      obtain ⟨ht, _, rfl⟩ := List.mem_map.mp he
      simp
    have hf : (s.pending.map
        (fun pr2 => ShutEvent.failPendingEv pr2.1 .CANCELLED)).countP
        (fun e => decide (e = ShutEvent.failPendingEv pr.1 .CANCELLED)) =
        1 := by
      rw [List.countP_map]
      have : ((fun e => decide (e = ShutEvent.failPendingEv pr.1 .CANCELLED))
          ∘ (fun pr2 : Nat × PendingRequest =>
              ShutEvent.failPendingEv pr2.1 .CANCELLED)) =
          (fun pr2 : Nat × PendingRequest => decide (pr2.1 = pr.1)) := by
        funext pr2
        simp [Function.comp]
      rw [this]
      exact countP_key_eq_one s.pending hnd pr hpr
    rw [hc, hf]
    rfl
  · intro id ck
    rfl

/-- Concrete instantiation of claim C5: a session with one registered
scan and one pending command resolves that command with Cancelled exactly
once during shutdown. -/
theorem C5_witness :
    (Session.shutdown
        ⟨.Enabled, scenarioSched, [(1, ⟨[(4, none)]⟩)], 2, true,
          true⟩).2.countP
      (fun e => decide (e = ShutEvent.failPendingEv 1 .CANCELLED)) = 1 :=
  (C5_shutdown_order_and_drain
      ⟨.Enabled, scenarioSched, [(1, ⟨[(4, none)]⟩)], 2, true, true⟩).2.2.2.2.2.2.2.1
    (by decide) (1, ⟨[(4, none)]⟩) (List.mem_singleton.mpr rfl)

/-- Claim C7: shutdown leaves the session in the Shutdown state, and in
that state every submit and every addScan fails immediately with the
value-returned ShutdownInProgress error — the session, its pending table
and its scheduler are unchanged, so nothing is queued and no exception
escapes. -/
theorem C7_submit_after_shutdown_fails :
    (∀ s : Session, (Session.shutdown s).1.state = .Shutdown) ∧
    (∀ (s : Session) (items : List (Nat × Option CommandStatus))
      (now : Nat) (cm : List PointClass) (period : Nat),
      s.state = .Shutdown →
      Session.submit s items = (s, .error .ShutdownInProgress) ∧
      Session.addScanS s now cm period = (s, .error .ShutdownInProgress) ∧
      (Session.submit s items).1.pending = s.pending ∧
      (Session.addScanS s now cm period).1.sched = s.sched) := by
  refine ⟨fun s => rfl, ?_⟩
  intro s items now cm period hstate
  have h1 : Session.submit s items = (s, .error .ShutdownInProgress) := by
    unfold Session.submit
    rw [if_pos hstate]
  have h2 : Session.addScanS s now cm period =
      (s, .error .ShutdownInProgress) := by
    unfold Session.addScanS
    rw [if_pos hstate]
  exact ⟨h1, h2, by rw [h1], by rw [h2]⟩

/-- Concrete instantiation of claim C7: after shutting down a live
session, a submit and an addScan both return the ShutdownInProgress
error and leave the session untouched. -/
theorem C7_witness :
    Session.submit
        (Session.shutdown ⟨.Enabled, scenarioSched, [], 0, true, true⟩).1
        [(4, none)] =
      ((Session.shutdown ⟨.Enabled, scenarioSched, [], 0, true, true⟩).1,
        .error .ShutdownInProgress) ∧
    Session.addScanS
        (Session.shutdown ⟨.Enabled, scenarioSched, [], 0, true, true⟩).1
        0 [.Class1] 5 =
      ((Session.shutdown ⟨.Enabled, scenarioSched, [], 0, true, true⟩).1,
        .error .ShutdownInProgress) :=
  ⟨(C7_submit_after_shutdown_fails.2
      (Session.shutdown ⟨.Enabled, scenarioSched, [], 0, true, true⟩).1
      [(4, none)] 0 [.Class1] 5 (by decide)).1,
   (C7_submit_after_shutdown_fails.2
      (Session.shutdown ⟨.Enabled, scenarioSched, [], 0, true, true⟩).1
      [(4, none)] 0 [.Class1] 5 (by decide)).2.1⟩

end DNPy
